import Mathlib

/-
  Verification development for the student-success-predict dashboard.

  Shallow embedding of the three claim-relevant components:
  * `PredictionForm` (src/unnamed/part_001): the heuristic scoring run on
    form submission (`handleSubmit`).
  * `BulkUpload` (src/src/components/BulkUpload.tsx): file selection,
    the upload guard, and the CSV template download.
  * `Analytics` (src/src/components/Analytics.tsx): the hard-coded sample
    data rendered by the cohort view.

  JavaScript numbers are modelled as exact rationals (ℚ): the heuristic is
  plain arithmetic on decimal literals, and every claim is about the exact
  values of that arithmetic.  Component state is explicit: each handler is a
  function from the state (and the event payload) to the new state together
  with the notification it emits.
-/

namespace StudentSuccess

/-- A toast notification as emitted via `toast.success` / `toast.error`. -/
inductive Toast where
  | success (msg : String)
  | error (msg : String)
deriving DecidableEq, Repr

/- ----------------------------------------------------------------
   PredictionForm (src/unnamed/part_001)
   ---------------------------------------------------------------- -/

/-- The four optional activity-score fields of the form.  An empty field is
`none`; the source parses `formData.xxx || "0"`, so a missing field
contributes 0. -/
structure EngagementScores where
  culturalActivityScore : Option ℚ
  classParticipationScore : Option ℚ
  sportsActivityScore : Option ℚ
  curricularActivityScore : Option ℚ
deriving DecidableEq, Repr

/-- `parseFloat(field || "0")`: a missing activity score is read as 0. -/
def orZero (x : Option ℚ) : ℚ := x.getD 0

/-- Lines 41–46 of part_001: the engagement value is the sum of the four
activity scores (missing = 0) divided by 4. -/
def engagement (e : EngagementScores) : ℚ :=
  (orZero e.culturalActivityScore + orZero e.classParticipationScore +
      orZero e.sportsActivityScore + orZero e.curricularActivityScore) / 4

/-- Line 48 of part_001: `attendance * 0.3 + internalMarks * 0.5 + engagement * 2`. -/
def score (attendance internalMarks : ℚ) (e : EngagementScores) : ℚ :=
  attendance * 0.3 + internalMarks * 0.5 + engagement e * 2

/-- Line 49 of part_001: `Math.min(Math.max(score / 100, 0.1), 0.95)`. -/
def probability (attendance internalMarks : ℚ) (e : EngagementScores) : ℚ :=
  min (max (score attendance internalMarks e / 100) 0.1) 0.95

/-- The `"Pass" | "Fail"` union type of the source. -/
inductive Outcome where
  | pass
  | fail
deriving DecidableEq, Repr

/-- Line 50 of part_001: `probability > 0.5 ? "Pass" : "Fail"`. -/
def predictionOf (p : ℚ) : Outcome :=
  if p > 0.5 then Outcome.pass else Outcome.fail

/-- The `"low" | "medium" | "high"` union type of the source. -/
inductive RiskLevel where
  | low
  | medium
  | high
deriving DecidableEq, Repr

/-- Lines 52–53 of part_001:
`probability > 0.7 ? "low" : probability > 0.4 ? "medium" : "high"`. -/
def riskLevelOf (p : ℚ) : RiskLevel :=
  if p > 0.7 then RiskLevel.low
  else if p > 0.4 then RiskLevel.medium
  else RiskLevel.high

/-- One `{ feature, impact }` entry of `topFactors`. -/
structure Factor where
  feature : String
  impact : ℚ
deriving DecidableEq, Repr

/-- The `PredictionResult` interface of part_001 (lines 11–16). -/
structure PredictionResult where
  prediction : Outcome
  probability : ℚ
  topFactors : List Factor
  riskLevel : RiskLevel
deriving DecidableEq, Repr

/-- Lines 39–64 of part_001: the result stored by `setResult` when the form
is submitted with the given parsed attendance, internal marks and activity
scores. -/
def handleSubmit (attendance internalMarks : ℚ) (e : EngagementScores) :
    PredictionResult :=
  { prediction := predictionOf (probability attendance internalMarks e)
    probability := probability attendance internalMarks e
    topFactors :=
      [⟨"Internal Marks", internalMarks⟩,
       ⟨"Attendance", attendance⟩,
       ⟨"Engagement Index", engagement e * 10⟩]
    riskLevel := riskLevelOf (probability attendance internalMarks e) }

/-- Modelled from the spec (for refinement comparison only): the engagement
index as the spec words it — "the unweighted mean of the four activity
scores (cultural, class participation, sports, curricular) with any absent
score treated as 0". -/
def specEngagement (cultural classParticipation sports curricular : Option ℚ) : ℚ :=
  (cultural.getD 0 + classParticipation.getD 0 + sports.getD 0 +
      curricular.getD 0) / 4

/-- Modelled from the spec (for refinement comparison only): the score
formula as the spec words it —
`0.30 * attendance + 0.50 * internal + 2.0 * engagement`. -/
def specScore (attendance internal : ℚ)
    (cultural classParticipation sports curricular : Option ℚ) : ℚ :=
  0.30 * attendance + 0.50 * internal +
    2.0 * specEngagement cultural classParticipation sports curricular

/- ----------------------------------------------------------------
   BulkUpload (src/src/components/BulkUpload.tsx)
   ---------------------------------------------------------------- -/

/-- The bulk view's local state: the selected file (modelled by its name,
the only attribute the component reads) and the `uploading` flag. -/
structure BulkState where
  file : Option String
  uploading : Bool
deriving DecidableEq, Repr

/-- Lines 12–17 of BulkUpload.tsx: `handleFileChange`.  The event payload is
`e.target.files`, which may be absent (`none`) or an empty list; only when a
first file exists is the selection replaced and a success toast emitted. -/
def handleFileChange (s : BulkState) (files : Option (List String)) :
    BulkState × Option Toast :=
  match files with
  | some (f :: _) =>
      ({ s with file := some f }, some (Toast.success ("File selected: " ++ f)))
  | _ => (s, none)

/-- Lines 19–33 of BulkUpload.tsx: the synchronous part of `handleUpload`.
With no file selected it emits the error toast and returns; otherwise it
sets `uploading` (the 2000 ms timer completion is a separate step,
`uploadTimerDone`). -/
def handleUpload (s : BulkState) : BulkState × Option Toast :=
  match s.file with
  | none => (s, some (Toast.error "Please select a file first"))
  | some _ => ({ s with uploading := true }, none)

/-- Lines 28–32 of BulkUpload.tsx: the timer body that completes a simulated
upload of the file named `name`: success toast, `uploading := false`,
`file := null`. -/
def uploadTimerDone (s : BulkState) (name : String) : BulkState × Toast :=
  ({ s with uploading := false, file := none },
   Toast.success ("Successfully processed " ++ name))

/-- Lines 36–39 of BulkUpload.tsx: the CSV text built by `downloadTemplate`. -/
def csvContent : String :=
  "student_id,semester,attendance_pct,internal_marks_avg,cultural_activity_score,class_participation_score,sports_activity_score,curricular_activity_score\n1DA23IS001,5,87.5,72,7,8,5,9\n1DA23IS002,5,62.0,48,3,4,6,2\n1DA23IS003,6,91.2,85,9,9,7,10"

/-- A client-side file download: name, media type and content. -/
structure Download where
  filename : String
  mediaType : String
  content : String
deriving DecidableEq, Repr

/-- Lines 35–48 of BulkUpload.tsx: `downloadTemplate`.  It is declared inside
the component, so the view state is in scope, but its body reads none of it;
the parameter records that the download is produced from an arbitrary state. -/
def downloadTemplate (_s : BulkState) : Download × Toast :=
  (⟨"student_data_template.csv", "text/csv", csvContent⟩,
   Toast.success "Template downloaded successfully!")

/-- Modelled from the spec (for comparison only): the literal CSV of spec
section 6B — exact header and three example rows. -/
def specSection6Csv : String :=
  "student_id,semester,attendance_pct,internal_marks_avg,cultural_activity_score,class_participation_score,sports_activity_score,curricular_activity_score\n1DA23IS001,5,87.5,72,7,8,5,9\n1DA23IS002,5,62.0,48,3,4,6,2\n1DA23IS003,6,91.2,85,9,9,7,10"

/- ----------------------------------------------------------------
   Analytics (src/src/components/Analytics.tsx)
   ---------------------------------------------------------------- -/

/-- One pie-chart segment of `riskDistribution` (name, value, color). -/
structure RiskSlice where
  name : String
  value : ℕ
  color : String
deriving DecidableEq, Repr

/-- Lines 6–10 of Analytics.tsx: the `riskDistribution` sample data. -/
def riskDistribution : List RiskSlice :=
  [⟨"Low Risk", 120, "hsl(var(--accent))"⟩,
   ⟨"Medium Risk", 45, "hsl(var(--chart-4))"⟩,
   ⟨"High Risk", 18, "hsl(var(--destructive))"⟩]

/-- Line 32 of Analytics.tsx: the "Total Students Analyzed" summary card. -/
def totalStudentsAnalyzedCard : ℕ := 183

/-- Line 44 of Analytics.tsx: the "High Risk Students" summary card. -/
def highRiskStudentsCard : ℕ := 18

/- ----------------------------------------------------------------
   Theorems
   ---------------------------------------------------------------- -/

/-- C1: for every submission, the computed score equals
`0.30 * attendance + 0.50 * internalMarks + 2.0 * engagement`, where the
engagement is the unweighted mean of the four activity scores with any
absent score treated as 0. -/
theorem c1_score_formula (attendance internalMarks : ℚ) (e : EngagementScores) :
    score attendance internalMarks e =
      specScore attendance internalMarks e.culturalActivityScore
        e.classParticipationScore e.sportsActivityScore
        e.curricularActivityScore := by
  simp only [score, specScore, engagement, specEngagement, orZero]
  ring

/-- C2: for attendance and internal marks in [0,100] and engagement index in
[0,10], the submission's probability equals `clamp(score/100, 0.10, 0.95)`
and lies in the closed interval [0.10, 0.95]. -/
theorem c2_probability_clamped (attendance internalMarks : ℚ)
    (e : EngagementScores)
    (ha : 0 ≤ attendance ∧ attendance ≤ 100)
    (hi : 0 ≤ internalMarks ∧ internalMarks ≤ 100)
    (he : 0 ≤ engagement e ∧ engagement e ≤ 10) :
    (handleSubmit attendance internalMarks e).probability =
        min (max ((0.30 * attendance + 0.50 * internalMarks +
          2.0 * engagement e) / 100) 0.10) 0.95 ∧
      0.10 ≤ (handleSubmit attendance internalMarks e).probability ∧
      (handleSubmit attendance internalMarks e).probability ≤ 0.95 := by
  refine ⟨?_, ?_, ?_⟩
  · simp only [handleSubmit, probability, score]
    norm_num
    ring_nf
  · simp only [handleSubmit, probability]
    refine le_min (le_trans (by norm_num) (le_max_right _ _)) (by norm_num)
  · exact min_le_right _ _

/-- C2 witness at attendance 87.5, internal marks 72, engagement scores
{7, 8, 5, 9}. -/
theorem c2_probability_clamped_witness :
    (handleSubmit 87.5 72 ⟨some 7, some 8, some 5, some 9⟩).probability =
        min (max ((0.30 * 87.5 + 0.50 * 72 +
          2.0 * engagement ⟨some 7, some 8, some 5, some 9⟩) / 100) 0.10) 0.95 ∧
      0.10 ≤ (handleSubmit 87.5 72 ⟨some 7, some 8, some 5, some 9⟩).probability ∧
      (handleSubmit 87.5 72 ⟨some 7, some 8, some 5, some 9⟩).probability ≤ 0.95 :=
  c2_probability_clamped 87.5 72 ⟨some 7, some 8, some 5, some 9⟩
    (by norm_num) (by norm_num)
    (by constructor <;> · simp only [engagement, orZero]; norm_num)

/-- The submitted prediction is `Pass` exactly when the probability is
strictly above 0.5 (line 50 of part_001). -/
theorem predictionOf_eq_pass_iff (p : ℚ) :
    predictionOf p = Outcome.pass ↔ 0.5 < p := by
  unfold predictionOf
  split_ifs with h
  · exact iff_of_true rfl h
  · exact iff_of_false (by simp) h

/-- The risk level is `low` exactly when the probability is strictly above
0.7 (line 53 of part_001). -/
theorem riskLevelOf_eq_low_iff (p : ℚ) :
    riskLevelOf p = RiskLevel.low ↔ 0.7 < p := by
  unfold riskLevelOf
  split_ifs with h1 h2
  · exact iff_of_true rfl h1
  · exact iff_of_false (by simp) h1
  · exact iff_of_false (by simp) h1

/-- The risk level is `medium` exactly when 0.4 < probability ≤ 0.7. -/
theorem riskLevelOf_eq_medium_iff (p : ℚ) :
    riskLevelOf p = RiskLevel.medium ↔ 0.4 < p ∧ p ≤ 0.7 := by
  unfold riskLevelOf
  split_ifs with h1 h2
  · exact iff_of_false (by simp) (fun h => absurd h.2 (not_le.mpr h1))
  · exact iff_of_true rfl ⟨h2, not_lt.mp h1⟩
  · exact iff_of_false (by simp) (fun h => absurd h.1 h2)

/-- The risk level is `high` exactly when probability ≤ 0.4. -/
theorem riskLevelOf_eq_high_iff (p : ℚ) :
    riskLevelOf p = RiskLevel.high ↔ p ≤ 0.4 := by
  unfold riskLevelOf
  split_ifs with h1 h2
  · exact iff_of_false (by simp) (not_le.mpr (by linarith))
  · exact iff_of_false (by simp) (not_le.mpr h2)
  · exact iff_of_true rfl (not_lt.mp h2)

/-- Evaluation helper: when the raw score lies in [10, 95] the clamp is the
identity and the probability is `score / 100`. -/
theorem probability_of_score (a i : ℚ) (e : EngagementScores) (v : ℚ)
    (hs : score a i e = v) (h1 : 10 ≤ v) (h2 : v ≤ 95) :
    probability a i e = v / 100 := by
  unfold probability
  rw [hs, max_eq_left (by linarith), min_eq_left (by linarith)]

/-- C3: for every result produced by a submission, the prediction is "Pass"
iff probability > 0.5; the risk level is "low" iff probability > 0.7,
"medium" iff 0.4 < probability ≤ 0.7 and "high" iff probability ≤ 0.4; and
both comparisons are strict: a submission whose probability is exactly 0.70
gets "medium" and one whose probability is exactly 0.40 gets "high". -/
theorem c3_prediction_and_risk (attendance internalMarks : ℚ)
    (e : EngagementScores) :
    ((handleSubmit attendance internalMarks e).prediction = Outcome.pass ↔
        0.5 < (handleSubmit attendance internalMarks e).probability) ∧
    ((handleSubmit attendance internalMarks e).riskLevel = RiskLevel.low ↔
        0.7 < (handleSubmit attendance internalMarks e).probability) ∧
    ((handleSubmit attendance internalMarks e).riskLevel = RiskLevel.medium ↔
        0.4 < (handleSubmit attendance internalMarks e).probability ∧
          (handleSubmit attendance internalMarks e).probability ≤ 0.7) ∧
    ((handleSubmit attendance internalMarks e).riskLevel = RiskLevel.high ↔
        (handleSubmit attendance internalMarks e).probability ≤ 0.4) ∧
    ((handleSubmit 100 60 ⟨some 5, some 5, some 5, some 5⟩).probability = 0.7 ∧
      (handleSubmit 100 60 ⟨some 5, some 5, some 5, some 5⟩).riskLevel =
        RiskLevel.medium) ∧
    ((handleSubmit 0 80 ⟨some 0, some 0, some 0, some 0⟩).probability = 0.4 ∧
      (handleSubmit 0 80 ⟨some 0, some 0, some 0, some 0⟩).riskLevel =
        RiskLevel.high) := by
  have hp7 : probability 100 60 ⟨some 5, some 5, some 5, some 5⟩ = 0.7 := by
    rw [probability_of_score _ _ _ 70
      (by simp only [score, engagement, orZero, Option.getD_some]; norm_num)
      (by norm_num) (by norm_num)]
    norm_num
  have hp4 : probability 0 80 ⟨some 0, some 0, some 0, some 0⟩ = 0.4 := by
    rw [probability_of_score _ _ _ 40
      (by simp only [score, engagement, orZero, Option.getD_some]; norm_num)
      (by norm_num) (by norm_num)]
    norm_num
  refine ⟨predictionOf_eq_pass_iff _, riskLevelOf_eq_low_iff _,
    riskLevelOf_eq_medium_iff _, riskLevelOf_eq_high_iff _,
    ⟨hp7, ?_⟩, ⟨hp4, ?_⟩⟩
  · show riskLevelOf (probability 100 60 _) = RiskLevel.medium
    rw [hp7]
    exact (riskLevelOf_eq_medium_iff _).mpr ⟨by norm_num, by norm_num⟩
  · show riskLevelOf (probability 0 80 _) = RiskLevel.high
    rw [hp4]
    exact (riskLevelOf_eq_high_iff _).mpr (by norm_num)

/-- C4: for attendance 62.0, internal marks 48 and engagement scores
{3, 4, 6, 2} (mean 3.75), the submission produces score 50.1, probability
0.501, prediction "Pass" and risk level "medium". -/
theorem c4_worked_example :
    engagement ⟨some 3, some 4, some 6, some 2⟩ = 3.75 ∧
    score 62.0 48 ⟨some 3, some 4, some 6, some 2⟩ = 50.1 ∧
    (handleSubmit 62.0 48 ⟨some 3, some 4, some 6, some 2⟩).probability = 0.501 ∧
    (handleSubmit 62.0 48 ⟨some 3, some 4, some 6, some 2⟩).prediction =
      Outcome.pass ∧
    (handleSubmit 62.0 48 ⟨some 3, some 4, some 6, some 2⟩).riskLevel =
      RiskLevel.medium := by
  have he : engagement ⟨some 3, some 4, some 6, some 2⟩ = 3.75 := by
    simp only [engagement, orZero, Option.getD_some]
    norm_num
  have hs : score 62.0 48 ⟨some 3, some 4, some 6, some 2⟩ = 50.1 := by
    simp only [score, he]
    norm_num
  have hp : probability 62.0 48 ⟨some 3, some 4, some 6, some 2⟩ = 0.501 := by
    rw [probability_of_score _ _ _ 50.1 hs (by norm_num) (by norm_num)]
    norm_num
  refine ⟨he, hs, hp, ?_, ?_⟩
  · show predictionOf (probability 62.0 48 _) = Outcome.pass
    rw [hp]
    exact (predictionOf_eq_pass_iff _).mpr (by norm_num)
  · show riskLevelOf (probability 62.0 48 _) = RiskLevel.medium
    rw [hp]
    exact (riskLevelOf_eq_medium_iff _).mpr ⟨by norm_num, by norm_num⟩

/-- C5: the `topFactors` of every submission result is exactly the
three-element list Internal Marks (impact = internal marks), Attendance
(impact = attendance), Engagement Index (impact = engagement * 10), in that
fixed order, whatever the relative magnitudes of the inputs. -/
theorem c5_top_factors (attendance internalMarks : ℚ) (e : EngagementScores) :
    (handleSubmit attendance internalMarks e).topFactors =
      [⟨"Internal Marks", internalMarks⟩,
       ⟨"Attendance", attendance⟩,
       ⟨"Engagement Index", engagement e * 10⟩] ∧
    (handleSubmit attendance internalMarks e).topFactors.length = 3 :=
  ⟨rfl, rfl⟩

/-- C6: invoking Upload & Predict in any state with no file selected emits
the error toast "Please select a file first" and leaves the state untouched:
the uploading flag (false in such a state) stays false and the file
selection stays absent. -/
theorem c6_upload_without_file (s : BulkState) (hf : s.file = none)
    (hu : s.uploading = false) :
    handleUpload s = (s, some (Toast.error "Please select a file first")) ∧
    (handleUpload s).1.uploading = false ∧
    (handleUpload s).1.file = none := by
  refine ⟨?_, ?_, ?_⟩ <;> simp [handleUpload, hf, hu]

/-- C6 witness at the initial bulk-view state (no file, not uploading). -/
theorem c6_upload_without_file_witness :
    handleUpload ⟨none, false⟩ =
        (⟨none, false⟩, some (Toast.error "Please select a file first")) ∧
    (handleUpload ⟨none, false⟩).1.uploading = false ∧
    (handleUpload ⟨none, false⟩).1.file = none :=
  c6_upload_without_file ⟨none, false⟩ rfl rfl

/-- C7: the template download is the same in every bulk-view state: a file
named `student_data_template.csv` of media type `text/csv` whose content is
byte-identical to the literal CSV of spec section 6. -/
theorem c7_template_state_independent (s t : BulkState) :
    downloadTemplate s = downloadTemplate t ∧
    (downloadTemplate s).1.filename = "student_data_template.csv" ∧
    (downloadTemplate s).1.mediaType = "text/csv" ∧
    (downloadTemplate s).1.content = specSection6Csv ∧
    (downloadTemplate s).2 = Toast.success "Template downloaded successfully!" :=
  ⟨rfl, rfl, rfl, rfl, rfl⟩

/-- C8: the three pie-chart segment values of the analytics view sum to 183,
the number on the "Total Students Analyzed" card, and the High Risk segment
value equals the "High Risk Students" card value (18). -/
theorem c8_analytics_consistency :
    (riskDistribution.map RiskSlice.value).sum = 183 ∧
    (riskDistribution.map RiskSlice.value).sum = totalStudentsAnalyzedCard ∧
    (riskDistribution.filter (fun r => r.name == "High Risk")).map
        RiskSlice.value = [highRiskStudentsCard] ∧
    highRiskStudentsCard = 18 := by
  refine ⟨?_, ?_, ?_, ?_⟩ <;> decide

/-- Monotonicity of the clamp step: a larger raw score yields a larger or
equal probability. -/
theorem probability_mono_of_score_le (a a' i i' : ℚ) (e e' : EngagementScores)
    (h : score a i e ≤ score a' i' e') :
    probability a i e ≤ probability a' i' e' := by
  unfold probability
  have hdiv : score a i e / 100 ≤ score a' i' e' / 100 := by linarith
  exact min_le_min (max_le_max hdiv le_rfl) le_rfl

/-- C9: the pipeline is monotone in each single input: raising attendance,
internal marks, or any one of the four activity scores while holding every
other field fixed never lowers the probability. -/
theorem c9_probability_monotone (attendance internalMarks x y : ℚ)
    (o1 o2 o3 o4 : Option ℚ) (hxy : x ≤ y) :
    probability x internalMarks ⟨o1, o2, o3, o4⟩ ≤
        probability y internalMarks ⟨o1, o2, o3, o4⟩ ∧
    probability attendance x ⟨o1, o2, o3, o4⟩ ≤
        probability attendance y ⟨o1, o2, o3, o4⟩ ∧
    probability attendance internalMarks ⟨some x, o1, o2, o3⟩ ≤
        probability attendance internalMarks ⟨some y, o1, o2, o3⟩ ∧
    probability attendance internalMarks ⟨o1, some x, o2, o3⟩ ≤
        probability attendance internalMarks ⟨o1, some y, o2, o3⟩ ∧
    probability attendance internalMarks ⟨o1, o2, some x, o3⟩ ≤
        probability attendance internalMarks ⟨o1, o2, some y, o3⟩ ∧
    probability attendance internalMarks ⟨o1, o2, o3, some x⟩ ≤
        probability attendance internalMarks ⟨o1, o2, o3, some y⟩ := by
  refine ⟨?_, ?_, ?_, ?_, ?_, ?_⟩ <;>
    · apply probability_mono_of_score_le
      simp only [score, engagement, orZero, Option.getD_some]
      linarith

/-- C9 witness: raising each input at a concrete point. -/
theorem c9_probability_monotone_witness :
    probability 3 70 ⟨some 1, some 2, some 4, some 1⟩ ≤
        probability 5 70 ⟨some 1, some 2, some 4, some 1⟩ ∧
    probability 80 3 ⟨some 1, some 2, some 4, some 1⟩ ≤
        probability 80 5 ⟨some 1, some 2, some 4, some 1⟩ ∧
    probability 80 70 ⟨some 3, some 1, some 2, some 4⟩ ≤
        probability 80 70 ⟨some 5, some 1, some 2, some 4⟩ ∧
    probability 80 70 ⟨some 1, some 3, some 2, some 4⟩ ≤
        probability 80 70 ⟨some 1, some 5, some 2, some 4⟩ ∧
    probability 80 70 ⟨some 1, some 2, some 3, some 4⟩ ≤
        probability 80 70 ⟨some 1, some 2, some 5, some 4⟩ ∧
    probability 80 70 ⟨some 1, some 2, some 4, some 3⟩ ≤
        probability 80 70 ⟨some 1, some 2, some 4, some 5⟩ :=
  c9_probability_monotone 80 70 3 5 (some 1) (some 2) (some 4) (some 1)
    (by norm_num)

/-- C10: a file-change event that delivers no file (absent or empty file
list) leaves the stored selection and the uploading flag unchanged and emits
no notification; the selection is replaced (with a success toast) exactly
when the event carries at least one file. -/
theorem c10_file_change_frame (s : BulkState) (files : Option (List String))
    (h : files = none ∨ files = some []) :
    handleFileChange s files = (s, none) ∧
    ∀ f rest, handleFileChange s (some (f :: rest)) =
      ({ s with file := some f },
        some (Toast.success ("File selected: " ++ f))) := by
  constructor
  · rcases h with h | h <;> subst h <;> rfl
  · intro f rest
    rfl

/-- C10 witness: a cancelled dialog (empty list) on a state with a prior
selection, and a fresh selection event. -/
theorem c10_file_change_frame_witness :
    handleFileChange ⟨some "old.csv", false⟩ (some []) =
        (⟨some "old.csv", false⟩, none) ∧
    ∀ f rest, handleFileChange ⟨some "old.csv", false⟩ (some (f :: rest)) =
      (⟨some f, false⟩, some (Toast.success ("File selected: " ++ f))) :=
  c10_file_change_frame ⟨some "old.csv", false⟩ (some []) (Or.inr rfl)

end StudentSuccess
